import Mathlib

/-!
# Verification of the grant-authorization pipeline (node-oauth2-server fork)

Shallow embedding of `src/lib/grant.js`, `src/lib/grantBase.js` and the two
pre-approved grant variants in `src/unnamed/part_000`, together with proofs
about the step runner, the grant-type dispatch, the token lifecycle and the
error taxonomy.

Conventions of the embedding:
* JavaScript `undefined`/`null` on a field is `Option.none`; string truthiness
  (`!s`) is `truthyS` (a present non-empty string is truthy).
* Timestamps are integers; `new Date()` is the `now` field of the context,
  `expires.setSeconds(getSeconds() + lifetime)` is integer addition of the
  lifetime to `now` (`JsDate.time`), and adding a non-number (the whole
  lifetime map object) yields an invalid date (`JsDate.nan`).
* Storage-model calls are pure oracles returning `Except ModelErr _`
  (one asynchronous result per call); every call is recorded in a call log
  so that "storage is never invoked" properties are statable.
* A step that throws synchronously (a `TypeError`) is `StepOut.crash`; a step
  that never calls its callback is `StepOut.never`.
-/

namespace OAuth2

/-- JS string truthiness for an optional field: `undefined`, `null` and the
empty string are falsy. -/
def truthyS : Option String → Bool
  | some s => s ≠ ""
  | none => false

/-- JS `a || d` for an optional string `a` and a string default `d`. -/
def jsOrD (a : Option String) (d : String) : String :=
  match a with
  | some s => if s = "" then d else s
  | none => d

/-- JS `a || b` for two optional strings (the result may itself be falsy,
exactly as in JS where `undefined || undefined` is `undefined`). -/
def jsOr2 (a b : Option String) : Option String :=
  if truthyS a then a else b

/-- An error value reported by a storage-model callback.  `etype`,
`description` and `message` embed the JS fields `err.type`,
`err.description` and `err.message` read by the extended-grant branch;
`tag` distinguishes otherwise-equal errors. -/
structure ModelErr where
  etype : Option String := none
  description : Option String := none
  message : Option String := none
  tag : String := ""
deriving DecidableEq

/-- The `err` argument wrapped into a protocol error for diagnostics: either
a storage-model error object or a plain string (the fatal integration
messages are passed as strings in the source). -/
inductive Cause where
  | model (e : ModelErr)
  | msg (s : String)
deriving DecidableEq

/-- Modelled from the spec: `src/lib/error.js` is not under `src/`; §4.2
describes the error constructor as producing a tagged error from a kind, a
human-readable message (suppressed when the source passes `false`), and an
optional wrapped underlying cause. -/
structure OAuthError where
  kind : String
  message : Option String := none
  cause : Option Cause := none
deriving DecidableEq

/-- Embeds `error(kind, msg)` with a plain message and no cause. -/
def mkErr (kind msg : String) : OAuthError :=
  { kind := kind, message := some msg }

/-- Embeds `error('server_error', false, err)`: the uniform wrapping of a
storage-model failure. -/
def serverWrap (e : ModelErr) : OAuthError :=
  { kind := "server_error", message := none, cause := some (.model e) }

/-- Embeds `error('server_error', false, 'some message string')`: the fatal
integration errors pass a plain string as the wrapped cause. -/
def serverMsg (s : String) : OAuthError :=
  { kind := "server_error", message := none, cause := some (.msg s) }

/-- Embeds `error(err.type || 'server_error', err.description || err.message, err)`
— the extended-grant wrapping (`src/lib/grant.js` lines 295-296). -/
def extWrap (e : ModelErr) : OAuthError :=
  { kind := jsOrD e.etype "server_error",
    message := jsOr2 e.description e.message,
    cause := some (.model e) }

/-- A user principal returned by storage: an object whose `id` field may be
absent; `tag` distinguishes otherwise-equal principals. -/
structure User where
  id : Option String := none
  tag : String := ""
deriving DecidableEq

/-- The object shape of a token value: a reissue marker carries the existing
token string under `accessToken` (for access tokens) or `refreshToken`
(for refresh tokens). -/
structure TokenObj where
  accessToken : Option String := none
  refreshToken : Option String := none
deriving DecidableEq

/-- A token value held in the context: either a plain generated string or a
structured object (reissue marker shape). -/
inductive TokenVal where
  | str (s : String)
  | obj (o : TokenObj)
deriving DecidableEq

/-- JS truthiness of an optional token value (`!refreshToken`): absent is
falsy, an empty string is falsy, any object is truthy. -/
def truthyTok : Option TokenVal → Bool
  | none => false
  | some (.str s) => s ≠ ""
  | some (.obj _) => true

/-- A storage record for an authorization code or refresh token: `clientId`,
a nullable `expires` timestamp, and either a `user` object or a `userId`. -/
structure TokenRecord where
  clientId : String
  expires : Option Int := none
  user : Option User := none
  userId : Option String := none
deriving DecidableEq

/-- The ephemeral client credentials constructed per request
(`function Client(id, secret)`); fields may be absent before validation. -/
structure ClientCreds where
  clientId : Option String := none
  clientSecret : Option String := none
deriving DecidableEq

/-- A JS `Date` value computed for expiry: a valid timestamp or an invalid
date (`NaN`, produced when a non-number lifetime is added to a date). -/
inductive JsDate where
  | time (t : Int)
  | nan
deriving DecidableEq

/-- A lifetime configuration value: `null`, a scalar number of seconds, or a
per-client mapping whose entries may themselves be `null`. -/
inductive Lifetime where
  | null
  | num (n : Int)
  | map (m : List (String × Option Int))
deriving DecidableEq

/-- The value placed in the `expires_in` response field: a number, a JS
`null` (a mapping entry that is null), or the whole mapping object (the
source assigns the raw config value when the mapping has no entry for the
client). -/
inductive EVal where
  | num (n : Int)
  | nullv
  | mapv (m : List (String × Option Int))
deriving DecidableEq

/-- The success payload assembled by the response builder. -/
structure Response where
  token_type : String
  access_token : Option TokenVal
  expires_in : Option EVal := none
  refresh_token : Option TokenVal := none
deriving DecidableEq

/-- One recorded invocation of a storage-model method, with the arguments
passed at the call site. -/
inductive MCall where
  | getClient (id secret : Option String)
  | grantTypeAllowed (id gt : Option String)
  | getUser (u p : String)
  | getUserFromClient (id secret : Option String)
  | getAuthCode (c : String)
  | getRefreshToken (t : String)
  | revokeRefreshToken (t : String)
  | extendedGrant (gt : String)
  | saveAccessToken (tok : Option TokenVal) (cid : Option String)
      (expires : Option JsDate) (user : Option User) (gt : Option String)
  | saveRefreshToken (tok : Option TokenVal) (cid : Option String)
      (expires : Option JsDate) (user : Option User)
deriving DecidableEq

/-- Whether a storage call is a save or revoke (a persistent write). -/
def isSaveOrRevoke : MCall → Bool
  | .saveAccessToken _ _ _ _ _ => true
  | .saveRefreshToken _ _ _ _ => true
  | .revokeRefreshToken _ => true
  | _ => false

/-- How a pipeline step concludes: it calls its callback without error
(possibly carrying a return value), calls it with an error, never calls it
at all, or throws synchronously. -/
inductive StepOut where
  | ok (resp : Option Response)
  | err (e : OAuthError)
  | never
  | crash (msg : String)
deriving DecidableEq

/-- The per-request mutable grant context (`this` inside the pipeline),
together with the module-global object: the source's `checkClient` callback
writes `this.clientModel` with `this` bound to the global object (the
callback is invoked as a plain function in sloppy mode), so the global slot
`globalClientModel` is modelled separately from the context slot
`clientModel`. -/
structure GrantState where
  now : Int
  grantType : Option String := none
  client : ClientCreds := {}
  clientModel : Option String := none
  globalClientModel : Option String := none
  user : Option User := none
  accessToken : Option TokenVal := none
  refreshToken : Option TokenVal := none
  appUser : Option User := none
  appOauth : Option (Option String) := none
  resSent : Option Response := none
deriving DecidableEq

/-- The outcome of running one step: the updated context, the storage calls
it made, and how its callback concluded. -/
structure StepRes where
  state : GrantState
  calls : List MCall
  out : StepOut
deriving DecidableEq

/-- A pipeline step (`function (done)` with `this` bound to the context). -/
def Step := GrantState → StepRes

/-- How the runner's final callback `next` is (or is not) invoked:
`stopped e` is `next(err)`, `finished r` is `next(null, response)` after the
last step, `hung` means no step callback fired so `next` is never invoked,
`crashed` is a synchronous exception escaping the runner. -/
inductive RunResult where
  | stopped (e : OAuthError)
  | finished (resp : Option Response)
  | hung
  | crashed (msg : String)
deriving DecidableEq

/-- Full observable outcome of a pipeline run: final context, concatenated
storage-call log, how `next` concluded, and how many steps executed. -/
structure RunOut where
  state : GrantState
  calls : List MCall
  result : RunResult
  executed : Nat
deriving DecidableEq

/-- The step runner of `src/unnamed/part_000` lines 24-34 (the second copy
at lines 271-281 is character-identical).  `run(pos)` invokes the current
step with a callback that first checks the error (`if (err) return
next(err)` — so an error on the last step still stops), then checks
`pos === last` (invoking `next(null, response)` with the last step's return
value), and otherwise advances; the recursion below is structural on the
remaining step list, distinguishing the last step from an interior one.
An empty step list crashes in the source (`fns[0]` is undefined and not
callable). -/
def runner : List Step → GrantState → RunOut
  | [], st => ⟨st, [], .crashed "TypeError: fns[pos] is not a function", 0⟩
  | [f], st =>
    match (f st).out with
    | .ok resp => ⟨(f st).state, (f st).calls, .finished resp, 1⟩
    | .err e => ⟨(f st).state, (f st).calls, .stopped e, 1⟩
    | .never => ⟨(f st).state, (f st).calls, .hung, 1⟩
    | .crash m => ⟨(f st).state, (f st).calls, .crashed m, 1⟩
  | f :: g :: gs, st =>
    match (f st).out with
    | .ok _ =>
      ⟨(runner (g :: gs) (f st).state).state,
       (f st).calls ++ (runner (g :: gs) (f st).state).calls,
       (runner (g :: gs) (f st).state).result,
       (runner (g :: gs) (f st).state).executed + 1⟩
    | .err e => ⟨(f st).state, (f st).calls, .stopped e, 1⟩
    | .never => ⟨(f st).state, (f st).calls, .hung, 1⟩
    | .crash m => ⟨(f st).state, (f st).calls, .crashed m, 1⟩

/-- Run a list of steps assuming every one calls back without error;
returns the final context and call log, or `none` as soon as some step
does not conclude with `ok`. -/
def runOkSeq : List Step → GrantState → Option (GrantState × List MCall)
  | [], st => some (st, [])
  | f :: fs, st =>
    match (f st).out with
    | .ok _ =>
      match runOkSeq fs (f st).state with
      | some (st2, cs2) => some (st2, (f st).calls ++ cs2)
      | none => none
    | .err _ => none
    | .never => none
    | .crash _ => none

/-- The form-encoded request payload fields read by the pipeline. -/
structure Payload where
  grant_type : Option String := none
  code : Option String := none
  username : Option String := none
  password : Option String := none
  refresh_token : Option String := none
  client_id : Option String := none
  client_secret : Option String := none

/-- The transport-independent request abstraction: method, content type,
an optional payload object, and an optional parsed basic-auth header
(`credsFromBasic` returning a name/pass pair, or `false`). -/
structure Req where
  method : String
  mime : String
  payload : Option Payload := none
  basicAuth : Option (String × String) := none

/-- The configuration surface read by the pipeline.  The two `regex` fields
abstract the configured validation patterns as decidable predicates. -/
structure Config where
  grants : List String := []
  accessTokenLifetime : Lifetime := .num 3600
  refreshTokenLifetime : Lifetime := .num 1209600
  regexClientId : String → Bool := fun _ => true
  regexGrantType : String → Bool := fun _ => true
  continueAfterResponse : Bool := false

/-- The storage-model capability surface, as pure single-result oracles.
`revokeRefreshToken` and `extendedGrant` are optional capabilities; the
extended-grant oracle's dependence on the opaque request object is folded
into the oracle itself. -/
structure Model where
  getClient : Option String → Option String → Except ModelErr (Option String)
  grantTypeAllowed : Option String → Option String → Except ModelErr Bool
  getUser : String → String → Except ModelErr (Option User)
  getUserFromClient : Option String → Option String → Except ModelErr (Option User)
  getAuthCode : String → Except ModelErr (Option TokenRecord)
  getRefreshToken : String → Except ModelErr (Option TokenRecord)
  revokeRefreshToken : Option (String → Except ModelErr Unit) := none
  extendedGrant : Option (String → Except ModelErr (Bool × Option User)) := none
  saveAccessToken : Option TokenVal → Option String → Option JsDate → Option User →
      Option String → Except ModelErr Unit
  saveRefreshToken : Option TokenVal → Option String → Option JsDate → Option User →
      Except ModelErr Unit

/-- Modelled from the spec: `src/lib/token.js` is not under `src/`; §6
describes the token-producing capability as `generate(context, kind) ->
token|reissueMarker`, and §4.7 says its error is propagated verbatim.  The
oracle maps the token kind string to either a protocol error (propagated
unchanged by the generate steps) or a token value. -/
def TokenGen := String → Except OAuthError TokenVal

/-- The caller-supplied input of a pre-approved grant:
`{user, client_id, client_secret, grant_type?}`. -/
structure PreApproved where
  user : Option User := none
  client_id : Option String := none
  client_secret : Option String := none
  grant_type : Option String := none

/-- A character of the extension-scheme body class `[a-zA-Z0-9+.-]`. -/
def isSchemeChar (c : Char) : Bool :=
  c.isAlpha || c.isDigit || c = '+' || c = '.' || c = '-'

/-- Scan for `[a-zA-Z0-9+.-]+:` — at least one body character, then a
colon (the class excludes the colon, so the regex matches exactly when the
first colon is preceded only by body characters and is not first). -/
def schemeBody : List Char → Nat → Bool
  | [], _ => false
  | c :: cs, n =>
    if c = ':' then decide (1 ≤ n)
    else if isSchemeChar c then schemeBody cs (n + 1)
    else false

/-- The extension-scheme test `grantType.match(/^[a-zA-Z][a-zA-Z0-9+.-]+:/)`
of `src/lib/grant.js` line 138. -/
def isExtScheme (s : String) : Bool :=
  match s.data with
  | [] => false
  | c :: rest => c.isAlpha && schemeBody rest 0

/-- The `lifetime[clientId]` lookup on a per-client mapping. -/
def lookupLT (m : List (String × Option Int)) (cid : Option String) :
    Option (Option Int) :=
  match cid with
  | some c => m.lookup c
  | none => none

/-- Lifetime resolution of `src/lib/grantBase.js` lines 85-94 (and 136-145
for refresh tokens).  The source indexes `lifetime[this.client.clientId]`
BEFORE any null check, so a `null` lifetime configuration throws a
`TypeError`; a scalar yields `now` plus the scalar; a mapping entry
overrides (a null entry suppressing expiry); a mapping with no entry leaves
`lifetime` bound to the mapping object itself, and
`setSeconds(getSeconds() + lifetime)` then produces an invalid date. -/
def resolveExpires (lt : Lifetime) (cid : Option String) (now : Int) :
    Except String (Option JsDate) :=
  match lt with
  | .null => .error "TypeError: cannot read property of null"
  | .num n => .ok (some (.time (now + n)))
  | .map m =>
    match lookupLT m cid with
    | some (some k) => .ok (some (.time (now + k)))
    | some none => .ok none
    | none => .ok (some .nan)

/-- The `expires_in` computation of `sendResponse` (`src/lib/grant.js`
lines 361-368) and of the second pre-approved response builder
(`src/unnamed/part_000` lines 379-386): skipped when the configured value
is null; a mapping entry for the client overrides; otherwise the raw
configured value (the scalar, or the whole mapping object when the mapping
has no entry) is assigned. -/
def expiresInOf (lt : Lifetime) (cid : Option String) : Option EVal :=
  match lt with
  | .null => none
  | .num n => some (.num n)
  | .map m =>
    match lookupLT m cid with
    | some (some k) => some (.num k)
    | some none => some .nullv
    | none => some (.mapv m)

/-- Embeds `extractCredentials` (`src/lib/grant.js` lines 69-96): POST +
form-encoding required; `grant_type` must be present and match the
configured pattern (the context's `grantType` is assigned before the
check); client credentials come from basic auth when present, else from the
body (the context's `client` is assigned before the id/secret checks). -/
def extractCredentials (cfg : Config) (req : Req) : Step := fun st =>
  if req.method ≠ "post" ∨ req.mime ≠ "application/x-www-form-urlencoded" then
    ⟨st, [], .err (mkErr "invalid_request"
      "Method must be POST with application/x-www-form-urlencoded encoding")⟩
  else
    let gt := req.payload.bind Payload.grant_type
    let st1 := { st with grantType := gt }
    let gtOk := match gt with
      | some s => s ≠ "" && cfg.regexGrantType s
      | none => false
    if gtOk = false then
      ⟨st1, [], .err (mkErr "invalid_request"
        "Invalid or missing grant_type parameter")⟩
    else
      let cl : ClientCreds := match req.basicAuth with
        | some (n, p) => ⟨some n, some p⟩
        | none => match req.payload with
          | some pl => ⟨pl.client_id, pl.client_secret⟩
          | none => ⟨none, none⟩
      let st2 := { st1 with client := cl }
      let cidOk := match cl.clientId with
        | some c => c ≠ "" && cfg.regexClientId c
        | none => false
      if cidOk = false then
        ⟨st2, [], .err (mkErr "invalid_client"
          "Invalid or missing client_id parameter")⟩
      else if ¬ truthyS cl.clientSecret then
        ⟨st2, [], .err (mkErr "invalid_client" "Missing client_secret parameter")⟩
      else
        ⟨st2, [], .ok none⟩

/-- Embeds `GrantBase.prototype.checkClient` (`src/lib/grantBase.js` lines 42-54).
Storage error wraps to `server_error`; no client is `invalid_client`.  On
success the source executes `this.clientModel = client` inside the model's
callback, where `this` is NOT the grant context (`var self = this` is
declared but unused; the callback is invoked by the model as a plain
function, so in sloppy mode `this` is the global object): the record lands
in the global slot and the context's `clientModel` is left unchanged. -/
def checkClientG (m : Model) : Step := fun st =>
  let call := MCall.getClient st.client.clientId st.client.clientSecret
  match m.getClient st.client.clientId st.client.clientSecret with
  | .error e => ⟨st, [call], .err (serverWrap e)⟩
  | .ok none => ⟨st, [call], .err (mkErr "invalid_client" "Client credentials are invalid")⟩
  | .ok (some c) => ⟨{ st with globalClientModel := some c }, [call], .ok none⟩

/-- The first pre-approved variant's `checkClient` (`src/unnamed/part_000`
lines 107-119): same validation, but the success callback performs no
assignment at all. -/
def checkClientPA1 (m : Model) : Step := fun st =>
  let call := MCall.getClient st.client.clientId st.client.clientSecret
  match m.getClient st.client.clientId st.client.clientSecret with
  | .error e => ⟨st, [call], .err (serverWrap e)⟩
  | .ok none => ⟨st, [call], .err (mkErr "invalid_client" "Client credentials are invalid")⟩
  | .ok (some _) => ⟨st, [call], .ok none⟩

/-- Embeds `exposeClient` (`src/lib/grant.js` lines 343-347):
`this.req.app.oauth = { client: this.clientModel }`. -/
def exposeClient : Step := fun st =>
  ⟨{ st with appOauth := some st.clientModel }, [], .ok none⟩

/-- Embeds `exposeUser` (`src/lib/grant.js` lines 337-341):
`this.req.app.user = this.user`. -/
def exposeUser : Step := fun st =>
  ⟨{ st with appUser := st.user }, [], .ok none⟩

/-- Embeds `checkGrantTypeAllowed` (`src/lib/grant.js` lines 317-329). -/
def checkGrantTypeAllowed (m : Model) : Step := fun st =>
  let call := MCall.grantTypeAllowed st.client.clientId st.grantType
  match m.grantTypeAllowed st.client.clientId st.grantType with
  | .error e => ⟨st, [call], .err (serverWrap e)⟩
  | .ok false => ⟨st, [call], .err (mkErr "invalid_client"
      "The grant type is unauthorised for this client_id")⟩
  | .ok true => ⟨st, [call], .ok none⟩

/-- Embeds `useAuthCodeGrant` (`src/lib/grant.js` lines 163-188).  The expiry
comparison `authCode.expires < self.now` has no null guard: a null
`expires` coerces to 0 (`ToNumber(null) = 0`). -/
def useAuthCodeGrant (m : Model) (req : Req) (st : GrantState) : StepRes :=
  let code := req.payload.bind Payload.code
  if ¬ truthyS code then
    ⟨st, [], .err (mkErr "invalid_request" "No \"code\" parameter")⟩
  else
    let c := code.getD ""
    let call := MCall.getAuthCode c
    match m.getAuthCode c with
    | .error e => ⟨st, [call], .err (serverWrap e)⟩
    | .ok none => ⟨st, [call], .err (mkErr "invalid_grant" "Invalid code")⟩
    | .ok (some rec) =>
      if st.client.clientId ≠ some rec.clientId then
        ⟨st, [call], .err (mkErr "invalid_grant" "Invalid code")⟩
      else if rec.expires.getD 0 < st.now then
        ⟨st, [call], .err (mkErr "invalid_grant" "Code has expired")⟩
      else
        let u : User := rec.user.getD { id := rec.userId }
        let st1 := { st with user := some u }
        if ¬ truthyS u.id then
          ⟨st1, [call],
            .err (serverMsg "No user/userId parameter returned from getauthCode")⟩
        else
          ⟨st1, [call], .ok none⟩

/-- Embeds `usePasswordGrant` (`src/lib/grant.js` lines 195-214).  The user
returned by `getUser` is attached to the context as-is, with no check on
its `id` field. -/
def usePasswordGrant (m : Model) (req : Req) (st : GrantState) : StepRes :=
  let un := req.payload.bind Payload.username
  let pw := req.payload.bind Payload.password
  if ¬ truthyS un ∨ ¬ truthyS pw then
    ⟨st, [], .err (mkErr "invalid_client"
      "Missing parameters. \"username\" and \"password\" are required")⟩
  else
    let u := un.getD ""
    let p := pw.getD ""
    let call := MCall.getUser u p
    match m.getUser u p with
    | .error e => ⟨st, [call], .err (serverWrap e)⟩
    | .ok none => ⟨st, [call], .err (mkErr "invalid_grant" "User credentials are invalid")⟩
    | .ok (some user) => ⟨{ st with user := some user }, [call], .ok none⟩

/-- Embeds `useRefreshTokenGrant` (`src/lib/grant.js` lines 221-255).  The expiry
check here IS null-guarded (`expires !== null && expires < now`); a record
with neither `user` nor `userId` is a fatal integration error; when the
model exposes `revokeRefreshToken`, the presented token is revoked before
the step completes. -/
def useRefreshTokenGrant (m : Model) (req : Req) (st : GrantState) : StepRes :=
  let tok := req.payload.bind Payload.refresh_token
  if ¬ truthyS tok then
    ⟨st, [], .err (mkErr "invalid_request" "No \"refresh_token\" parameter")⟩
  else
    let t := tok.getD ""
    let call := MCall.getRefreshToken t
    match m.getRefreshToken t with
    | .error e => ⟨st, [call], .err (serverWrap e)⟩
    | .ok none => ⟨st, [call], .err (mkErr "invalid_grant" "Invalid refresh token")⟩
    | .ok (some rec) =>
      if st.client.clientId ≠ some rec.clientId then
        ⟨st, [call], .err (mkErr "invalid_grant" "Invalid refresh token")⟩
      else if (match rec.expires with
               | some x => decide (x < st.now)
               | none => false) then
        ⟨st, [call], .err (mkErr "invalid_grant" "Refresh token has expired")⟩
      else if rec.user = none ∧ ¬ truthyS rec.userId then
        ⟨st, [call],
          .err (serverMsg "No user/userId parameter returned from getRefreshToken")⟩
      else
        let st1 := { st with user := some (rec.user.getD { id := rec.userId }) }
        match m.revokeRefreshToken with
        | some rv =>
          let rcall := MCall.revokeRefreshToken t
          match rv t with
          | .error e => ⟨st1, [call, rcall], .err (serverWrap e)⟩
          | .ok _ => ⟨st1, [call, rcall], .ok none⟩
        | none => ⟨st1, [call], .ok none⟩

/-- Embeds `useClientCredentialsGrant` (`src/lib/grant.js` lines 262-283).  The
user returned by `getUserFromClient` is attached as-is, with no check on
its `id` field. -/
def useClientCredentialsGrant (m : Model) (st : GrantState) : StepRes :=
  if ¬ truthyS st.client.clientId ∨ ¬ truthyS st.client.clientSecret then
    ⟨st, [], .err (mkErr "invalid_client"
      "Missing parameters. \"client_id\" and \"client_secret\" are required")⟩
  else
    let call := MCall.getUserFromClient st.client.clientId st.client.clientSecret
    match m.getUserFromClient st.client.clientId st.client.clientSecret with
    | .error e => ⟨st, [call], .err (serverWrap e)⟩
    | .ok none => ⟨st, [call], .err (mkErr "invalid_grant" "Client credentials are invalid")⟩
    | .ok (some user) => ⟨{ st with user := some user }, [call], .ok none⟩

/-- Embeds `useExtendedGrant` (`src/lib/grant.js` lines 290-309).  A storage error
here is the ONLY branch where the storage-supplied `type`/`description`
override the default kind/message:
`error(err.type || 'server_error', err.description || err.message, err)`. -/
def useExtendedGrant (m : Model) (st : GrantState) : StepRes :=
  match m.extendedGrant with
  | none => ⟨st, [], .crash "TypeError: extendedGrant is not a function"⟩
  | some f =>
    let gt := st.grantType.getD ""
    let call := MCall.extendedGrant gt
    match f gt with
    | .error e => ⟨st, [call], .err (extWrap e)⟩
    | .ok (supported, u) =>
      if ¬ supported then
        ⟨st, [call], .err (mkErr "invalid_request"
          "Invalid grant_type parameter or parameter missing")⟩
      else
        match u with
        | none => ⟨st, [call], .err (mkErr "invalid_request" "Invalid request.")⟩
        | some user =>
          if user.id = none then
            ⟨st, [call], .err (mkErr "invalid_request" "Invalid request.")⟩
          else
            ⟨{ st with user := some user }, [call], .ok none⟩

/-- Embeds `checkGrantType` (`src/lib/grant.js` lines 137-156): extension schemes
take the extended branch when the model exposes the capability; otherwise
dispatch on the literal grant type. -/
def checkGrantType (m : Model) (req : Req) : Step := fun st =>
  if isExtScheme (st.grantType.getD "") && m.extendedGrant.isSome then
    useExtendedGrant m st
  else
    match st.grantType with
    | some "authorization_code" => useAuthCodeGrant m req st
    | some "password" => usePasswordGrant m req st
    | some "refresh_token" => useRefreshTokenGrant m req st
    | some "client_credentials" => useClientCredentialsGrant m st
    | _ => ⟨st, [], .err (mkErr "invalid_request"
        "Invalid grant_type parameter or parameter missing")⟩

/-- Embeds `GrantBase.prototype.generateAccessToken` (`src/lib/grantBase.js`
lines 62-68; the first pre-approved variant's copy at `part_000` lines
147-153 is identical): the capability's result is stored and its error is
passed to `done` verbatim. -/
def generateAccessToken (tg : TokenGen) : Step := fun st =>
  match tg "accessToken" with
  | .ok t => ⟨{ st with accessToken := some t }, [], .ok none⟩
  | .error e => ⟨{ st with accessToken := none }, [], .err e⟩

/-- Embeds `GrantBase.prototype.generateRefreshToken` (`src/lib/grantBase.js`
lines 109-117; `part_000` lines 189-197 identical): skipped without error
when `refresh_token` is not among the configured grants. -/
def generateRefreshToken (cfg : Config) (tg : TokenGen) : Step := fun st =>
  if ¬ cfg.grants.contains "refresh_token" then ⟨st, [], .ok none⟩
  else
    match tg "refreshToken" with
    | .ok t => ⟨{ st with refreshToken := some t }, [], .ok none⟩
    | .error e => ⟨{ st with refreshToken := none }, [], .err e⟩

/-- The reissue-marker test of the access-token save step: `typeof
accessToken === 'object' && accessToken.accessToken` — an object whose
`accessToken` field is truthy. -/
def accessMarker : Option TokenVal → Option String
  | some (.obj o) => if truthyS o.accessToken then o.accessToken else none
  | _ => none

/-- The reissue-marker test of the refresh-token save step. -/
def refreshMarker : Option TokenVal → Option String
  | some (.obj o) => if truthyS o.refreshToken then o.refreshToken else none
  | _ => none

/-- Embeds `GrantBase.prototype.saveAccessToken` (`src/lib/grantBase.js` lines
76-101): a reissue marker collapses to its plain string and skips storage;
otherwise the lifetime is resolved (crashing on a null configuration, see
`resolveExpires`) and the token persisted. -/
def saveAccessTokenG (cfg : Config) (m : Model) : Step := fun st =>
  match accessMarker st.accessToken with
  | some x => ⟨{ st with accessToken := some (.str x) }, [], .ok none⟩
  | none =>
    match resolveExpires cfg.accessTokenLifetime st.client.clientId st.now with
    | .error msg => ⟨st, [], .crash msg⟩
    | .ok expires =>
      let call := MCall.saveAccessToken st.accessToken st.client.clientId expires
        st.user st.grantType
      match m.saveAccessToken st.accessToken st.client.clientId expires
          st.user st.grantType with
      | .error e => ⟨st, [call], .err (serverWrap e)⟩
      | .ok _ => ⟨st, [call], .ok none⟩

/-- Embeds `GrantBase.prototype.saveRefreshToken` (`src/lib/grantBase.js` lines
125-152): a falsy token short-circuits as a no-op; a reissue marker
collapses and skips storage; otherwise resolve lifetime (same null crash)
and persist. -/
def saveRefreshTokenG (cfg : Config) (m : Model) : Step := fun st =>
  if ¬ truthyTok st.refreshToken then ⟨st, [], .ok none⟩
  else
    match refreshMarker st.refreshToken with
    | some x => ⟨{ st with refreshToken := some (.str x) }, [], .ok none⟩
    | none =>
      match resolveExpires cfg.refreshTokenLifetime st.client.clientId st.now with
      | .error msg => ⟨st, [], .crash msg⟩
      | .ok expires =>
        let call := MCall.saveRefreshToken st.refreshToken st.client.clientId expires
          st.user
        match m.saveRefreshToken st.refreshToken st.client.clientId expires st.user with
        | .error e => ⟨st, [call], .err (serverWrap e)⟩
        | .ok _ => ⟨st, [call], .ok none⟩

/-- Embeds `sendResponse` (`src/lib/grant.js` lines 355-379): builds the payload,
sends it through the transport (`resSent`), and calls its step callback
ONLY when `continueAfterResponse` is configured — otherwise the runner's
final callback is never invoked. -/
def sendResponse (cfg : Config) : Step := fun st =>
  let resp : Response := {
    token_type := "bearer",
    access_token := st.accessToken,
    expires_in := expiresInOf cfg.accessTokenLifetime st.client.clientId,
    refresh_token := if truthyTok st.refreshToken then st.refreshToken else none }
  let st1 := { st with resSent := some resp }
  if cfg.continueAfterResponse then ⟨st1, [], .ok none⟩ else ⟨st1, [], .never⟩

/-- The full-request pipeline step list of the `Grant` constructor
(`src/lib/grant.js` lines 44-56). -/
def grantSteps (cfg : Config) (m : Model) (tg : TokenGen) (req : Req) : List Step :=
  [extractCredentials cfg req,
   checkClientG m,
   exposeClient,
   checkGrantTypeAllowed m,
   checkGrantType m req,
   exposeUser,
   generateAccessToken tg,
   saveAccessTokenG cfg m,
   generateRefreshToken cfg tg,
   saveRefreshTokenG cfg m,
   sendResponse cfg]

/-- The fresh grant context built by the constructors (`GrantBase` captures
`now` once; all other fields start undefined). -/
def initGrant (now : Int) : GrantState := { now := now }

/-- Running the full-request `Grant` pipeline (`src/lib/grant.js` line 58;
the step runner of `src/lib/runner.js` is not under `src/` and is modelled
by `runner`, which matches both spec §4.1 and the character-identical
runner embedded from `src/unnamed/part_000`). -/
def grantRun (cfg : Config) (m : Model) (tg : TokenGen) (req : Req) (now : Int) :
    RunOut :=
  runner (grantSteps cfg m tg req) (initGrant now)

/-- Embeds `extractPreApprovedCredentials` (`src/unnamed/part_000` lines 72-88;
the second variant's copy at lines 329-345 is identical): require a user,
build the ephemeral `Client` from the supplied ids, then apply the same
client-id/secret shape checks as `extractCredentials`. -/
def extractPA (cfg : Config) (pre : PreApproved) : Step := fun st =>
  if pre.user = none then
    ⟨st, [], .err (mkErr "invalid_grant" "Pre-approved user is missing")⟩
  else
    let cl : ClientCreds := ⟨pre.client_id, pre.client_secret⟩
    let st1 := { st with client := cl }
    let cidOk := match cl.clientId with
      | some c => c ≠ "" && cfg.regexClientId c
      | none => false
    if cidOk = false then
      ⟨st1, [], .err (mkErr "invalid_client" "Invalid or missing client_id parameter")⟩
    else if ¬ truthyS cl.clientSecret then
      ⟨st1, [], .err (mkErr "invalid_client" "Missing client_secret parameter")⟩
    else
      ⟨st1, [], .ok none⟩

/-- Embeds `checkGrantType`/`usePreApprovedGrant` of the pre-approved pipelines
(`src/unnamed/part_000` lines 127-139 and 353-365): set the user directly
from the caller's input. -/
def checkGrantTypePA (pre : PreApproved) : Step := fun st =>
  ⟨{ st with user := pre.user }, [], .ok none⟩

/-- The first pre-approved variant's `saveAccessToken`
(`src/unnamed/part_000` lines 161-181): marker check, then a null-guarded
SCALAR lifetime computation (no per-client override; a mapping value would
be added to the date wholesale, yielding an invalid date). -/
def saveAccessTokenPA1 (cfg : Config) (m : Model) : Step := fun st =>
  match accessMarker st.accessToken with
  | some x => ⟨{ st with accessToken := some (.str x) }, [], .ok none⟩
  | none =>
    let expires : Option JsDate := match cfg.accessTokenLifetime with
      | .null => none
      | .num n => some (.time (st.now + n))
      | .map _ => some .nan
    let call := MCall.saveAccessToken st.accessToken st.client.clientId expires
      st.user st.grantType
    match m.saveAccessToken st.accessToken st.client.clientId expires
        st.user st.grantType with
    | .error e => ⟨st, [call], .err (serverWrap e)⟩
    | .ok _ => ⟨st, [call], .ok none⟩

/-- The first pre-approved variant's `saveRefreshToken`
(`src/unnamed/part_000` lines 205-227): same null-guarded scalar lifetime. -/
def saveRefreshTokenPA1 (cfg : Config) (m : Model) : Step := fun st =>
  if ¬ truthyTok st.refreshToken then ⟨st, [], .ok none⟩
  else
    match refreshMarker st.refreshToken with
    | some x => ⟨{ st with refreshToken := some (.str x) }, [], .ok none⟩
    | none =>
      let expires : Option JsDate := match cfg.refreshTokenLifetime with
        | .null => none
        | .num n => some (.time (st.now + n))
        | .map _ => some .nan
      let call := MCall.saveRefreshToken st.refreshToken st.client.clientId expires
        st.user
      match m.saveRefreshToken st.refreshToken st.client.clientId expires st.user with
      | .error e => ⟨st, [call], .err (serverWrap e)⟩
      | .ok _ => ⟨st, [call], .ok none⟩

/-- Embeds `returnPreApprovedResponse`, first variant (`src/unnamed/part_000`
lines 235-247): the payload is handed to the runner's callback as a return
value (`done(null, response)`); `expires_in` is the raw configured lifetime
when non-null (no per-client override). -/
def returnPAResponse1 (cfg : Config) : Step := fun st =>
  let resp : Response := {
    token_type := "bearer",
    access_token := st.accessToken,
    expires_in := match cfg.accessTokenLifetime with
      | .null => none
      | .num n => some (.num n)
      | .map mp => some (.mapv mp),
    refresh_token := if truthyTok st.refreshToken then st.refreshToken else none }
  ⟨st, [], .ok (some resp)⟩

/-- Embeds `returnPreApprovedResponse`, second variant (`src/unnamed/part_000`
lines 373-390): same, but with the per-client `expires_in` override of
`sendResponse`. -/
def returnPAResponse2 (cfg : Config) : Step := fun st =>
  let resp : Response := {
    token_type := "bearer",
    access_token := st.accessToken,
    expires_in := expiresInOf cfg.accessTokenLifetime st.client.clientId,
    refresh_token := if truthyTok st.refreshToken then st.refreshToken else none }
  ⟨st, [], .ok (some resp)⟩

/-- The first pre-approved variant's step list (`src/unnamed/part_000`
lines 41-49). -/
def paSteps1 (cfg : Config) (m : Model) (tg : TokenGen) (pre : PreApproved) :
    List Step :=
  [extractPA cfg pre,
   checkClientPA1 m,
   checkGrantTypePA pre,
   generateAccessToken tg,
   saveAccessTokenPA1 cfg m,
   generateRefreshToken cfg tg,
   saveRefreshTokenPA1 cfg m,
   returnPAResponse1 cfg]

/-- The second pre-approved variant's step list (`src/unnamed/part_000`
lines 303-311): it reuses the `GrantBase` prototype steps, including the
buggy `checkClient` and the per-client-override save steps. -/
def paSteps2 (cfg : Config) (m : Model) (tg : TokenGen) (pre : PreApproved) :
    List Step :=
  [extractPA cfg pre,
   checkClientG m,
   checkGrantTypePA pre,
   generateAccessToken tg,
   saveAccessTokenG cfg m,
   generateRefreshToken cfg tg,
   saveRefreshTokenG cfg m,
   returnPAResponse2 cfg]

/-- The first `PreApprovedGrant` constructor (`src/unnamed/part_000` lines
59-70): `grantType` is the literal `preApproved`; a `continueAfterResponse`
configuration throws `new Error(...)` at construction time, BEFORE the
runner is invoked (so no pipeline step and no storage call ever runs);
otherwise the pipeline executes. -/
def preApprovedGrant1 (cfg : Config) (m : Model) (tg : TokenGen)
    (pre : PreApproved) (now : Int) : Except String RunOut :=
  if cfg.continueAfterResponse then
    .error "continueAfterResponse option incompatible to preApproved"
  else
    .ok (runner (paSteps1 cfg m tg pre) { initGrant now with grantType := some "preApproved" })

/-- The second `PreApprovedGrant` constructor (`src/unnamed/part_000` lines
293-314): `grantType` is the supplied value or the literal `preApproved`.
This variant performs NO `continueAfterResponse` check — construction never
throws and the runner always starts. -/
def preApprovedGrant2 (cfg : Config) (m : Model) (tg : TokenGen)
    (pre : PreApproved) (now : Int) : Except String RunOut :=
  .ok (runner (paSteps2 cfg m tg pre)
    { initGrant now with grantType := some (jsOrD pre.grant_type "preApproved") })

/-! ## Step-runner lemmas -/

lemma runner_cons_ok (f : Step) (rest : List Step) (st : GrantState)
    (r : Option Response) (hf : (f st).out = .ok r) (hne : rest ≠ []) :
    runner (f :: rest) st =
      ⟨(runner rest (f st).state).state,
       (f st).calls ++ (runner rest (f st).state).calls,
       (runner rest (f st).state).result,
       (runner rest (f st).state).executed + 1⟩ := by
  cases rest with
  | nil => exact absurd rfl hne
  | cons g gs => simp only [runner, hf]

lemma runOkSeq_cons_elim {g : Step} {gs : List Step} {st st1 : GrantState}
    {cs : List MCall} (h : runOkSeq (g :: gs) st = some (st1, cs)) :
    ∃ r cs2, (g st).out = .ok r ∧ runOkSeq gs (g st).state = some (st1, cs2) ∧
      cs = (g st).calls ++ cs2 := by
  rw [runOkSeq] at h
  cases hout : (g st).out with
  | ok r =>
    simp only [hout] at h
    cases hrec : runOkSeq gs (g st).state with
    | none => simp only [hrec] at h; exact Option.noConfusion h
    | some p =>
      obtain ⟨st2, cs2⟩ := p
      simp only [hrec] at h
      injection h with h2
      injection h2 with ha hb
      subst ha
      exact ⟨r, cs2, rfl, rfl, hb.symm⟩
  | err e => simp only [hout] at h; exact Option.noConfusion h
  | never => simp only [hout] at h; exact Option.noConfusion h
  | crash m => simp only [hout] at h; exact Option.noConfusion h

/-- If every step of a prefix calls back without error and the next step
errors, the runner stops there with exactly that error: the final callback
receives the error value unmodified, exactly `prefixSteps.length + 1` steps
execute, and the result does not depend on the remaining steps. -/
lemma runner_seq_err : ∀ (pre : List Step) (f : Step) (post : List Step)
    (st st1 : GrantState) (cs : List MCall) (e : OAuthError),
    runOkSeq pre st = some (st1, cs) → (f st1).out = .err e →
    runner (pre ++ f :: post) st =
      ⟨(f st1).state, cs ++ (f st1).calls, .stopped e, pre.length + 1⟩ := by
  intro pre
  induction pre with
  | nil =>
    intro f post st st1 cs e h hf
    simp only [runOkSeq, Option.some.injEq, Prod.mk.injEq] at h
    obtain ⟨h1, h2⟩ := h
    subst h1; subst h2
    cases post with
    | nil => simp [runner, hf]
    | cons p ps => simp [runner, hf]
  | cons g gs ih =>
    intro f post st st1 cs e h hf
    obtain ⟨r, cs2, hout, hrec, hcs⟩ := runOkSeq_cons_elim h
    have hne : gs ++ f :: post ≠ [] := by simp
    rw [List.cons_append, runner_cons_ok g _ st r hout hne,
      ih f post _ st1 cs2 e hrec hf]
    simp [hcs, List.append_assoc]

/-- If every step of a prefix calls back without error and the next step
never calls its callback, the final callback is never invoked. -/
lemma runner_seq_never : ∀ (pre : List Step) (f : Step) (post : List Step)
    (st st1 : GrantState) (cs : List MCall),
    runOkSeq pre st = some (st1, cs) → (f st1).out = .never →
    runner (pre ++ f :: post) st =
      ⟨(f st1).state, cs ++ (f st1).calls, .hung, pre.length + 1⟩ := by
  intro pre
  induction pre with
  | nil =>
    intro f post st st1 cs h hf
    simp only [runOkSeq, Option.some.injEq, Prod.mk.injEq] at h
    obtain ⟨h1, h2⟩ := h
    subst h1; subst h2
    cases post with
    | nil => simp [runner, hf]
    | cons p ps => simp [runner, hf]
  | cons g gs ih =>
    intro f post st st1 cs h hf
    obtain ⟨r, cs2, hout, hrec, hcs⟩ := runOkSeq_cons_elim h
    have hne : gs ++ f :: post ≠ [] := by simp
    rw [List.cons_append, runner_cons_ok g _ st r hout hne,
      ih f post _ st1 cs2 hrec hf]
    simp [hcs, List.append_assoc]

/-- If every step before the last calls back without error and the last
step calls back with value `r`, the final callback receives `(null, r)`. -/
lemma runner_seq_last_ok : ∀ (pre : List Step) (f : Step)
    (st st1 : GrantState) (cs : List MCall) (r : Option Response),
    runOkSeq pre st = some (st1, cs) → (f st1).out = .ok r →
    runner (pre ++ [f]) st =
      ⟨(f st1).state, cs ++ (f st1).calls, .finished r, pre.length + 1⟩ := by
  intro pre
  induction pre with
  | nil =>
    intro f st st1 cs r h hf
    simp only [runOkSeq, Option.some.injEq, Prod.mk.injEq] at h
    obtain ⟨h1, h2⟩ := h
    subst h1; subst h2
    simp [runner, hf]
  | cons g gs ih =>
    intro f st st1 cs r h hf
    obtain ⟨r2, cs2, hout, hrec, hcs⟩ := runOkSeq_cons_elim h
    have hne : gs ++ [f] ≠ [] := by simp
    rw [List.cons_append, runner_cons_ok g _ st r2 hout hne,
      ih f _ st1 cs2 r hrec hf]
    simp [hcs, List.append_assoc]

/-! ## Concrete fixtures for witnesses -/

/-- A baseline storage model for concrete evaluations: every lookup
succeeds with a simple record. -/
def mBase : Model where
  getClient := fun _ _ => .ok (some "client-record")
  grantTypeAllowed := fun _ _ => .ok true
  getUser := fun _ _ => .ok (some { id := some "u1" })
  getUserFromClient := fun _ _ => .ok (some { id := some "u1" })
  getAuthCode := fun _ => .ok none
  getRefreshToken := fun _ => .ok none
  saveAccessToken := fun _ _ _ _ _ => .ok ()
  saveRefreshToken := fun _ _ _ _ => .ok ()

/-- A baseline token-producing capability: fresh plain string tokens. -/
def tgBase : TokenGen := fun kind => .ok (.str (kind ++ "-1"))

/-- A baseline configuration: both grant kinds enabled, scalar lifetimes,
all patterns accepted. -/
def cfgBase : Config := { grants := ["refresh_token"] }

/-- A pipeline step that succeeds without effects (witness fixture). -/
def okStep : Step := fun st => ⟨st, [], .ok none⟩

/-- A pipeline step that reports a fixed error (witness fixture). -/
def errStep : Step := fun st => ⟨st, [], .err (mkErr "invalid_request" "boom")⟩

/-! ## Claim theorems -/

/-- C5: if the i-th step calls its callback with an error, the runner
invokes the final callback with exactly that error value and executes no
step after the i-th (exactly i+1 steps run, and the outcome is the same
whatever the remaining steps are); if every step calls back without error,
the final callback receives the value passed by the last step. -/
theorem runner_first_error_stops_and_last_value_returned :
    (∀ (pre : List Step) (f : Step) (post : List Step) (st st1 : GrantState)
       (cs : List MCall) (e : OAuthError),
       runOkSeq pre st = some (st1, cs) → (f st1).out = .err e →
       (runner (pre ++ f :: post) st).result = .stopped e ∧
       (runner (pre ++ f :: post) st).executed = pre.length + 1) ∧
    (∀ (pre : List Step) (f : Step) (st st1 : GrantState)
       (cs : List MCall) (r : Option Response),
       runOkSeq pre st = some (st1, cs) → (f st1).out = .ok r →
       (runner (pre ++ [f]) st).result = .finished r) := by
  constructor
  · intro pre f post st st1 cs e h hf
    rw [runner_seq_err pre f post st st1 cs e h hf]
    exact ⟨rfl, rfl⟩
  · intro pre f st st1 cs r h hf
    rw [runner_seq_last_ok pre f st st1 cs r h hf]

/-- Witness for C5 at concrete step lists. -/
theorem runner_first_error_stops_witness :
    (runner [okStep, errStep, okStep] (initGrant 0)).result =
      .stopped (mkErr "invalid_request" "boom") ∧
    (runner [okStep, errStep, okStep] (initGrant 0)).executed = 2 ∧
    (runner [okStep, okStep] (initGrant 0)).result = .finished none := by
  refine ⟨?_, ?_, ?_⟩
  · exact (runner_first_error_stops_and_last_value_returned.1
      [okStep] errStep [okStep] (initGrant 0) (initGrant 0) [] _ rfl rfl).1
  · exact (runner_first_error_stops_and_last_value_returned.1
      [okStep] errStep [okStep] (initGrant 0) (initGrant 0) [] _ rfl rfl).2
  · exact runner_first_error_stops_and_last_value_returned.2
      [okStep] okStep (initGrant 0) (initGrant 0) [] none rfl rfl

/-- C9: an authorization-code record whose `expires` is null is rejected
with `invalid_grant` ("Code has expired"), because `expires < now` has no
null guard and `ToNumber(null) = 0 < now`; asymmetrically, the
refresh-token branch null-guards its expiry check, so a refresh-token
record with null `expires` proceeds. -/
theorem authCode_null_expiry_rejected_refresh_proceeds :
    (∀ (m : Model) (req : Req) (st : GrantState) (rec : TokenRecord) (c : String),
       req.payload.bind Payload.code = some c → c ≠ "" →
       m.getAuthCode c = .ok (some rec) →
       st.client.clientId = some rec.clientId →
       rec.expires = none → 0 < st.now →
       (useAuthCodeGrant m req st).out =
         .err (mkErr "invalid_grant" "Code has expired")) ∧
    (∀ (m : Model) (req : Req) (st : GrantState) (rec : TokenRecord)
       (t : String) (u : User),
       req.payload.bind Payload.refresh_token = some t → t ≠ "" →
       m.getRefreshToken t = .ok (some rec) →
       st.client.clientId = some rec.clientId →
       rec.expires = none → rec.user = some u →
       m.revokeRefreshToken = none →
       (useRefreshTokenGrant m req st).out = .ok none) := by
  constructor
  · intro m req st rec c h1 h2 h3 h4 h5 h6
    simp [useAuthCodeGrant, truthyS, h1, h2, h3, h4, h5, h6]
  · intro m req st rec t u h1 h2 h3 h4 h5 h6 h7
    simp [useRefreshTokenGrant, truthyS, h1, h2, h3, h4, h5, h6, h7]

/-- A token record with null `expires` and a user with an id (fixture). -/
def recNullExp : TokenRecord :=
  { clientId := "c1", expires := none, user := some { id := some "u1" } }

/-- Model answering `getAuthCode` with `recNullExp` (fixture). -/
def m9a : Model := { mBase with getAuthCode := fun _ => .ok (some recNullExp) }

/-- Model answering `getRefreshToken` with `recNullExp` (fixture). -/
def m9r : Model := { mBase with getRefreshToken := fun _ => .ok (some recNullExp) }

/-- A form-encoded POST request with an authorization code (fixture). -/
def req9a : Req :=
  { method := "post", mime := "application/x-www-form-urlencoded",
    payload := some { code := some "code1" } }

/-- A form-encoded POST request with a refresh token (fixture). -/
def req9r : Req :=
  { method := "post", mime := "application/x-www-form-urlencoded",
    payload := some { refresh_token := some "rt1" } }

/-- A context at time 5 with extracted client `c1` (fixture). -/
def st9 : GrantState := { initGrant 5 with client := ⟨some "c1", some "s1"⟩ }

/-- Witness for C9 at a concrete model and request. -/
theorem authCode_null_expiry_witness :
    (useAuthCodeGrant m9a req9a st9).out =
      .err (mkErr "invalid_grant" "Code has expired") ∧
    (useRefreshTokenGrant m9r req9r st9).out = .ok none := by
  constructor
  · exact authCode_null_expiry_rejected_refresh_proceeds.1 m9a req9a st9
      recNullExp "code1" rfl (by decide) rfl rfl rfl (by decide)
  · exact authCode_null_expiry_rejected_refresh_proceeds.2 m9r req9r st9
      recNullExp "rt1" { id := some "u1" } rfl (by decide) rfl rfl rfl rfl rfl

/-- A grant context carrying an access-token reissue marker whose wrapped
string is empty (fixture). -/
def stMarkerEmpty : GrantState :=
  { initGrant 0 with
      accessToken := some (.obj { accessToken := some "" }),
      client := ⟨some "c1", some "s1"⟩,
      grantType := some "password",
      user := some { id := some "u1" } }

/-- C7 counterexample: for the reissue-marker shape with the empty string
(`accessToken` field holding `""`), the truthiness test fails, so the save
step DOES call storage's `saveAccessToken` (passing the marker object) and
the context token does not collapse to the plain string. -/
theorem reissue_marker_empty_string_not_reissued :
    (saveAccessTokenG cfgBase mBase stMarkerEmpty).calls ≠ [] ∧
    (saveAccessTokenG cfgBase mBase stMarkerEmpty).state.accessToken ≠
      some (.str "") := by
  exact ⟨by decide, by decide⟩

/-- C7 amended: for every reissue marker wrapping a NON-EMPTY string, the
save step never calls storage's save and the context token collapses to
the plain string; symmetrically for refresh-token markers. -/
theorem reissue_marker_skips_save :
    (∀ (cfg : Config) (m : Model) (st : GrantState) (o : TokenObj) (x : String),
       x ≠ "" → o.accessToken = some x → st.accessToken = some (.obj o) →
       saveAccessTokenG cfg m st =
         ⟨{ st with accessToken := some (.str x) }, [], .ok none⟩) ∧
    (∀ (cfg : Config) (m : Model) (st : GrantState) (o : TokenObj) (y : String),
       y ≠ "" → o.refreshToken = some y → st.refreshToken = some (.obj o) →
       saveRefreshTokenG cfg m st =
         ⟨{ st with refreshToken := some (.str y) }, [], .ok none⟩) := by
  constructor
  · intro cfg m st o x hx ho hst
    simp [saveAccessTokenG, accessMarker, truthyS, hx, ho, hst]
  · intro cfg m st o y hy ho hst
    simp [saveRefreshTokenG, refreshMarker, truthyTok, truthyS, hy, ho, hst]

/-- A grant context carrying non-empty reissue markers for both token
kinds (fixture). -/
def stMarkers : GrantState :=
  { initGrant 0 with
      accessToken := some (.obj { accessToken := some "atX" }),
      refreshToken := some (.obj { refreshToken := some "rtX" }),
      client := ⟨some "c1", some "s1"⟩ }

/-- Witness for the amended C7 at concrete markers. -/
theorem reissue_marker_skips_save_witness :
    saveAccessTokenG cfgBase mBase stMarkers =
      ⟨{ stMarkers with accessToken := some (.str "atX") }, [], .ok none⟩ ∧
    saveRefreshTokenG cfgBase mBase stMarkers =
      ⟨{ stMarkers with refreshToken := some (.str "rtX") }, [], .ok none⟩ := by
  constructor
  · exact reissue_marker_skips_save.1 cfgBase mBase stMarkers
      { accessToken := some "atX" } "atX" (by decide) rfl rfl
  · exact reissue_marker_skips_save.2 cfgBase mBase stMarkers
      { refreshToken := some "rtX" } "rtX" (by decide) (by rfl) (by rfl)

/-- Whether a pre-approved constructor threw at construction time. -/
def isThrown (x : Except String RunOut) : Bool :=
  match x with
  | .error _ => true
  | .ok _ => false

/-- A configuration with `continueAfterResponse` enabled (fixture). -/
def cfgCAR : Config := { cfgBase with continueAfterResponse := true }

/-- A pre-approved input with user and client credentials (fixture). -/
def preW : PreApproved :=
  { user := some { id := some "u1" }, client_id := some "c1",
    client_secret := some "s1" }

/-- C4 counterexample: with `continueAfterResponse` enabled, the SECOND
pre-approved variant does not fail at construction — it runs its pipeline
normally (no construction-time check exists in that variant). -/
theorem preApproved2_no_construction_error :
    isThrown (preApprovedGrant2 cfgCAR mBase tgBase preW 0) = false := by
  rfl

/-- C4 amended: with `continueAfterResponse` enabled, the FIRST
pre-approved variant throws its construction-time fatal error before any
pipeline step runs, while the second variant performs no such check and
never throws. -/
theorem preApproved1_throws_on_continueAfterResponse :
    ∀ (cfg : Config) (m : Model) (tg : TokenGen) (pre : PreApproved) (now : Int),
      cfg.continueAfterResponse = true →
      preApprovedGrant1 cfg m tg pre now =
        .error "continueAfterResponse option incompatible to preApproved" ∧
      isThrown (preApprovedGrant2 cfg m tg pre now) = false := by
  intro cfg m tg pre now h
  exact ⟨by simp [preApprovedGrant1, h], rfl⟩

/-- Witness for the amended C4 at a concrete configuration. -/
theorem preApproved1_throws_witness :
    preApprovedGrant1 cfgCAR mBase tgBase preW 0 =
      .error "continueAfterResponse option incompatible to preApproved" ∧
    isThrown (preApprovedGrant2 cfgCAR mBase tgBase preW 0) = false := by
  exact preApproved1_throws_on_continueAfterResponse cfgCAR mBase tgBase preW 0 rfl

/-- A full password-grant request with client credentials in the body
(fixture). -/
def plPwd : Payload :=
  { grant_type := some "password", username := some "u", password := some "p",
    client_id := some "c1", client_secret := some "s1" }

/-- The request carrying `plPwd` (fixture). -/
def reqPwd : Req :=
  { method := "post", mime := "application/x-www-form-urlencoded",
    payload := some plPwd }

/-- C1: evaluation at the failing input.  `getClient` succeeds with the
record `"client-record"`, yet after the pipeline runs, the exposed
`req.app.oauth.client` is undefined (`some none`): the source's
`this.clientModel = client` executed with `this` bound to the global
object (`var self = this` is unused), so the record ended up in the global
slot and the grant context's `clientModel` was never set. -/
theorem checkClient_record_not_exposed :
    mBase.getClient (some "c1") (some "s1") = .ok (some "client-record") ∧
    (grantRun cfgBase mBase tgBase reqPwd 0).state.appOauth = some none ∧
    (grantRun cfgBase mBase tgBase reqPwd 0).state.globalClientModel =
      some "client-record" := by
  exact ⟨rfl, by decide, by decide⟩

/-- A configuration whose access-token lifetime is null (fixture). -/
def cfgNullLifetime : Config := { cfgBase with accessTokenLifetime := .null }

/-- A context holding a freshly generated access token (fixture). -/
def stFreshTok : GrantState :=
  { initGrant 0 with
      accessToken := some (.str "tok1"),
      client := ⟨some "c1", some "s1"⟩,
      grantType := some "password",
      user := some { id := some "u1" } }

/-- C3: evaluation at the failing input.  With a null access-token
lifetime the save step indexes `lifetime[clientId]` on `null` BEFORE the
null check and throws a `TypeError` — the step neither succeeds nor calls
storage; by contrast the response builder null-guards first, so a null
lifetime correctly suppresses `expires_in` there. -/
theorem saveAccessToken_null_lifetime_crashes :
    saveAccessTokenG cfgNullLifetime mBase stFreshTok =
      ⟨stFreshTok, [], .crash "TypeError: cannot read property of null"⟩ ∧
    expiresInOf Lifetime.null (some "c1") = none := by
  exact ⟨rfl, rfl⟩

/-- C6: every storage-model callback failure surfaces as `server_error`
wrapping the original cause (`serverWrap`, whose kind is the constant
`server_error` whatever the storage error carries), with exactly one
exception: the extended-grant dispatch branch, where the storage error's
`type`/`description` override the kind and message (`extWrap`). -/
theorem storage_errors_wrap_server_error :
    (∀ (m : Model) (st : GrantState) (e : ModelErr),
       m.getClient st.client.clientId st.client.clientSecret = .error e →
       (checkClientG m st).out = .err (serverWrap e)) ∧
    (∀ (m : Model) (st : GrantState) (e : ModelErr),
       m.grantTypeAllowed st.client.clientId st.grantType = .error e →
       (checkGrantTypeAllowed m st).out = .err (serverWrap e)) ∧
    (∀ (m : Model) (req : Req) (st : GrantState) (e : ModelErr) (c : String),
       req.payload.bind Payload.code = some c → c ≠ "" →
       m.getAuthCode c = .error e →
       (useAuthCodeGrant m req st).out = .err (serverWrap e)) ∧
    (∀ (m : Model) (req : Req) (st : GrantState) (e : ModelErr) (u p : String),
       req.payload.bind Payload.username = some u → u ≠ "" →
       req.payload.bind Payload.password = some p → p ≠ "" →
       m.getUser u p = .error e →
       (usePasswordGrant m req st).out = .err (serverWrap e)) ∧
    (∀ (m : Model) (req : Req) (st : GrantState) (e : ModelErr) (t : String),
       req.payload.bind Payload.refresh_token = some t → t ≠ "" →
       m.getRefreshToken t = .error e →
       (useRefreshTokenGrant m req st).out = .err (serverWrap e)) ∧
    (∀ (m : Model) (req : Req) (st : GrantState) (e : ModelErr) (t : String)
       (rec : TokenRecord) (u : User) (rv : String → Except ModelErr Unit),
       req.payload.bind Payload.refresh_token = some t → t ≠ "" →
       m.getRefreshToken t = .ok (some rec) →
       st.client.clientId = some rec.clientId →
       rec.expires = none → rec.user = some u →
       m.revokeRefreshToken = some rv → rv t = .error e →
       (useRefreshTokenGrant m req st).out = .err (serverWrap e)) ∧
    (∀ (m : Model) (st : GrantState) (e : ModelErr),
       truthyS st.client.clientId = true → truthyS st.client.clientSecret = true →
       m.getUserFromClient st.client.clientId st.client.clientSecret = .error e →
       (useClientCredentialsGrant m st).out = .err (serverWrap e)) ∧
    (∀ (cfg : Config) (m : Model) (st : GrantState) (e : ModelErr) (n : Int),
       accessMarker st.accessToken = none → cfg.accessTokenLifetime = .num n →
       m.saveAccessToken st.accessToken st.client.clientId
         (some (.time (st.now + n))) st.user st.grantType = .error e →
       (saveAccessTokenG cfg m st).out = .err (serverWrap e)) ∧
    (∀ (cfg : Config) (m : Model) (st : GrantState) (e : ModelErr) (n : Int),
       truthyTok st.refreshToken = true → refreshMarker st.refreshToken = none →
       cfg.refreshTokenLifetime = .num n →
       m.saveRefreshToken st.refreshToken st.client.clientId
         (some (.time (st.now + n))) st.user = .error e →
       (saveRefreshTokenG cfg m st).out = .err (serverWrap e)) ∧
    (∀ (m : Model) (st : GrantState) (e : ModelErr)
       (f : String → Except ModelErr (Bool × Option User)),
       m.extendedGrant = some f → f (st.grantType.getD "") = .error e →
       (useExtendedGrant m st).out = .err (extWrap e)) ∧
    (∀ e : ModelErr, (serverWrap e).kind = "server_error" ∧
       (serverWrap e).cause = some (.model e)) := by
  refine ⟨?_, ?_, ?_, ?_, ?_, ?_, ?_, ?_, ?_, ?_, ?_⟩
  · intro m st e h
    simp [checkClientG, h]
  · intro m st e h
    simp [checkGrantTypeAllowed, h]
  · intro m req st e c h1 h2 h3
    simp [useAuthCodeGrant, truthyS, h1, h2, h3]
  · intro m req st e u p h1 h2 h3 h4 h5
    simp [usePasswordGrant, truthyS, h1, h2, h3, h4, h5]
  · intro m req st e t h1 h2 h3
    simp [useRefreshTokenGrant, truthyS, h1, h2, h3]
  · intro m req st e t rec u rv h1 h2 h3 h4 h5 h6 h7 h8
    simp [useRefreshTokenGrant, truthyS, h1, h2, h3, h4, h5, h6, h7, h8]
  · intro m st e h1 h2 h3
    simp [useClientCredentialsGrant, h1, h2, h3]
  · intro cfg m st e n h1 h2 h3
    simp [saveAccessTokenG, resolveExpires, h1, h2, h3]
  · intro cfg m st e n h1 h2 h3 h4
    simp [saveRefreshTokenG, resolveExpires, h1, h2, h3, h4]
  · intro m st e f h1 h2
    simp [useExtendedGrant, h1, h2]
  · intro e
    exact ⟨rfl, rfl⟩

/-- A storage error with no taxonomy fields (fixture). -/
def errPlain : ModelErr := { tag := "boom" }

/-- A storage error carrying taxonomy overrides (fixture). -/
def errTyped : ModelErr :=
  { etype := some "custom_error", description := some "custom description",
    tag := "boom" }

/-- A model failing on every capability; the extended grant fails with the
typed error (fixture). -/
def mErrAll : Model where
  getClient := fun _ _ => .error errPlain
  grantTypeAllowed := fun _ _ => .error errPlain
  getUser := fun _ _ => .error errPlain
  getUserFromClient := fun _ _ => .error errPlain
  getAuthCode := fun _ => .error errPlain
  getRefreshToken := fun _ => .error errPlain
  revokeRefreshToken := some fun _ => .error errPlain
  extendedGrant := some fun _ => .error errTyped
  saveAccessToken := fun _ _ _ _ _ => .error errPlain
  saveRefreshToken := fun _ _ _ _ => .error errPlain

/-- A model whose refresh-token lookup succeeds but whose revoke fails
(fixture). -/
def mRevErr : Model :=
  { mBase with
      getRefreshToken := fun _ => .ok (some recNullExp),
      revokeRefreshToken := some fun _ => .error errPlain }

/-- A context holding both fresh string tokens (fixture). -/
def stFreshBoth : GrantState :=
  { stFreshTok with refreshToken := some (.str "rtok1") }

/-- Witness for C6 at concrete failing models. -/
theorem storage_errors_wrap_witness :
    (checkClientG mErrAll st9).out = .err (serverWrap errPlain) ∧
    (checkGrantTypeAllowed mErrAll st9).out = .err (serverWrap errPlain) ∧
    (useAuthCodeGrant mErrAll req9a st9).out = .err (serverWrap errPlain) ∧
    (usePasswordGrant mErrAll reqPwd st9).out = .err (serverWrap errPlain) ∧
    (useRefreshTokenGrant mErrAll req9r st9).out = .err (serverWrap errPlain) ∧
    (useRefreshTokenGrant mRevErr req9r st9).out = .err (serverWrap errPlain) ∧
    (useClientCredentialsGrant mErrAll st9).out = .err (serverWrap errPlain) ∧
    (saveAccessTokenG cfgBase mErrAll stFreshBoth).out = .err (serverWrap errPlain) ∧
    (saveRefreshTokenG cfgBase mErrAll stFreshBoth).out = .err (serverWrap errPlain) ∧
    (useExtendedGrant mErrAll st9).out = .err (extWrap errTyped) ∧
    extWrap errTyped =
      { kind := "custom_error", message := some "custom description",
        cause := some (.model errTyped) } := by
  obtain ⟨h1, h2, h3, h4, h5, h6, h7, h8, h9, h10, _⟩ :=
    storage_errors_wrap_server_error
  refine ⟨?_, ?_, ?_, ?_, ?_, ?_, ?_, ?_, ?_, ?_, rfl⟩
  · exact h1 mErrAll st9 errPlain rfl
  · exact h2 mErrAll st9 errPlain rfl
  · exact h3 mErrAll req9a st9 errPlain "code1" rfl (by decide) rfl
  · exact h4 mErrAll reqPwd st9 errPlain "u" "p" rfl (by decide) rfl (by decide) rfl
  · exact h5 mErrAll req9r st9 errPlain "rt1" rfl (by decide) rfl
  · exact h6 mRevErr req9r st9 errPlain "rt1" recNullExp
      { id := some "u1" } (fun _ => .error errPlain) rfl (by decide) rfl rfl rfl rfl
      rfl rfl
  · exact h7 mErrAll st9 errPlain rfl rfl rfl
  · exact h8 cfgBase mErrAll stFreshBoth errPlain 3600 rfl rfl rfl
  · exact h9 cfgBase mErrAll stFreshBoth errPlain 1209600 rfl rfl rfl rfl
  · exact h10 mErrAll st9 errTyped (fun _ => .error errTyped) rfl rfl

/-- A model whose `getUser` returns a user object with no `id` (fixture). -/
def mNoId : Model :=
  { mBase with getUser := fun _ _ => .ok (some { id := none, tag := "anon" }) }

/-- C2 counterexample: in the password grant, a user record returned by
`getUser` WITHOUT an `id` is attached to the context unchecked and reaches
the token lifecycle — the access token is persisted with that id-less user
and all 11 steps run. -/
theorem password_user_without_id_reaches_tokens :
    (grantRun cfgBase mNoId tgBase reqPwd 0).state.user =
      some { id := none, tag := "anon" } ∧
    (MCall.saveAccessToken (some (.str "accessToken-1")) (some "c1")
        (some (.time 3600)) (some { id := none, tag := "anon" })
        (some "password")) ∈ (grantRun cfgBase mNoId tgBase reqPwd 0).calls ∧
    (grantRun cfgBase mNoId tgBase reqPwd 0).executed = 11 := by
  refine ⟨by decide, by decide, by decide⟩

/-- C2 amended: the defined-`id` invariant is enforced only by the
authorization_code branch (success implies a truthy user id) and by the
extended branch (success implies `id` is defined); a storage record from
`getAuthCode` or `getRefreshToken` carrying neither `user` nor `userId`
fails with the fatal `server_error`; the password and client_credentials
branches perform no id check (see the counterexample). -/
theorem user_id_invariant_amended :
    (∀ (m : Model) (req : Req) (st : GrantState),
       (useAuthCodeGrant m req st).out = .ok none →
       ∃ u, (useAuthCodeGrant m req st).state.user = some u ∧
         truthyS u.id = true) ∧
    (∀ (m : Model) (st : GrantState),
       (useExtendedGrant m st).out = .ok none →
       ∃ u, (useExtendedGrant m st).state.user = some u ∧ u.id ≠ none) ∧
    (∀ (m : Model) (req : Req) (st : GrantState) (c : String) (rec : TokenRecord),
       req.payload.bind Payload.code = some c → c ≠ "" →
       m.getAuthCode c = .ok (some rec) →
       st.client.clientId = some rec.clientId →
       ¬ (rec.expires.getD 0 < st.now) →
       rec.user = none → rec.userId = none →
       (useAuthCodeGrant m req st).out =
         .err (serverMsg "No user/userId parameter returned from getauthCode")) ∧
    (∀ (m : Model) (req : Req) (st : GrantState) (t : String) (rec : TokenRecord),
       req.payload.bind Payload.refresh_token = some t → t ≠ "" →
       m.getRefreshToken t = .ok (some rec) →
       st.client.clientId = some rec.clientId →
       rec.expires = none →
       rec.user = none → rec.userId = none →
       (useRefreshTokenGrant m req st).out =
         .err (serverMsg "No user/userId parameter returned from getRefreshToken")) := by
  refine ⟨?_, ?_, ?_, ?_⟩
  · intro m req st
    simp only [useAuthCodeGrant]
    split
    · intro h; simp at h
    · split
      · intro h; simp at h
      · intro h; simp at h
      · split
        · intro h; simp at h
        · split
          · intro h; simp at h
          · split
            · intro h; simp at h
            · rename_i hid
              intro _
              refine ⟨_, rfl, ?_⟩
              simpa using hid
  · intro m st
    simp only [useExtendedGrant]
    split
    · intro h; simp at h
    · split
      · intro h; simp at h
      · split
        · intro h; simp at h
        · split
          · intro h; simp at h
          · split
            · intro h; simp at h
            · rename_i hid
              intro _
              exact ⟨_, rfl, hid⟩
  · intro m req st c rec h1 h2 h3 h4 h5 h6 h7
    simp [useAuthCodeGrant, truthyS, h1, h2, h3, h4, h5, h6, h7]
  · intro m req st t rec h1 h2 h3 h4 h5 h6 h7
    simp [useRefreshTokenGrant, truthyS, h1, h2, h3, h4, h5, h6, h7]

/-- A future-dated auth-code record with a user id (fixture). -/
def recFuture : TokenRecord :=
  { clientId := "c1", expires := some 99, user := some { id := some "u1" } }

/-- A record carrying neither `user` nor `userId` (fixture). -/
def recNoUser : TokenRecord := { clientId := "c1", expires := some 99 }

/-- Model answering `getAuthCode` with `recFuture` (fixture). -/
def mAC : Model := { mBase with getAuthCode := fun _ => .ok (some recFuture) }

/-- Model answering both lookups with `recNoUser` (fixture). -/
def mNoUser : Model :=
  { mBase with
      getAuthCode := fun _ => .ok (some recNoUser),
      getRefreshToken := fun _ => .ok (some recNoUser) }

/-- Model answering `getRefreshToken` with a never-expiring `recNoUser`
(fixture). -/
def mNoUserRT : Model :=
  { mBase with
      getRefreshToken := fun _ => .ok (some { clientId := "c1" }) }

/-- Witness for the amended C2 at concrete models. -/
theorem user_id_invariant_witness :
    (∃ u, (useAuthCodeGrant mAC req9a st9).state.user = some u ∧
       truthyS u.id = true) ∧
    (useAuthCodeGrant mNoUser req9a st9).out =
      .err (serverMsg "No user/userId parameter returned from getauthCode") ∧
    (useRefreshTokenGrant mNoUserRT req9r st9).out =
      .err (serverMsg "No user/userId parameter returned from getRefreshToken") := by
  refine ⟨?_, ?_, ?_⟩
  · exact user_id_invariant_amended.1 mAC req9a st9 (by decide)
  · exact user_id_invariant_amended.2.2.1 mNoUser req9a st9 "code1" recNoUser
      rfl (by decide) rfl rfl (by decide) rfl rfl
  · exact user_id_invariant_amended.2.2.2 mNoUserRT req9r st9 "rt1"
      { clientId := "c1" } rfl (by decide) rfl rfl rfl rfl rfl

/-- C8: a refresh_token grant whose record matches the client but whose
non-null `expires` is strictly before `now` stops the pipeline with
`invalid_grant` ("Refresh token has expired"), and no save or revoke is
ever invoked on the storage model. -/
theorem expired_refresh_token_stops_without_saves :
    ∀ (cfg : Config) (m : Model) (tg : TokenGen) (pl : Payload) (req : Req)
      (cid sec crec tok : String) (rec : TokenRecord) (t now : Int),
      req.method = "post" → req.mime = "application/x-www-form-urlencoded" →
      req.payload = some pl → req.basicAuth = none →
      pl.grant_type = some "refresh_token" →
      cfg.regexGrantType "refresh_token" = true →
      pl.client_id = some cid → cid ≠ "" → cfg.regexClientId cid = true →
      pl.client_secret = some sec → sec ≠ "" →
      m.getClient (some cid) (some sec) = .ok (some crec) →
      m.grantTypeAllowed (some cid) (some "refresh_token") = .ok true →
      pl.refresh_token = some tok → tok ≠ "" →
      m.getRefreshToken tok = .ok (some rec) →
      rec.clientId = cid → rec.expires = some t → t < now →
      (grantRun cfg m tg req now).result =
        .stopped (mkErr "invalid_grant" "Refresh token has expired") ∧
      (grantRun cfg m tg req now).calls.filter isSaveOrRevoke = [] := by
  intro cfg m tg pl req cid sec crec tok rec t now hm hmime hp hba hgt hrx hcid
    hcne hcrx hsec hsne hgc hga hrt hrne hgr hrc hre hlt
  have hext : isExtScheme "refresh_token" = false := by decide
  constructor <;>
    simp [grantRun, grantSteps, runner, extractCredentials, checkClientG,
      exposeClient, checkGrantTypeAllowed, checkGrantType, useRefreshTokenGrant,
      truthyS, initGrant, isSaveOrRevoke, hext, hm, hmime, hp, hba, hgt, hrx,
      hcid, hcne, hcrx, hsec, hsne, hgc, hga, hrt, hrne, hgr, hrc, hre, hlt]

/-- A refresh-token record for client `c1` expiring at time 4 (fixture). -/
def recExpired : TokenRecord :=
  { clientId := "c1", expires := some 4, user := some { id := some "u1" } }

/-- Model answering `getRefreshToken` with `recExpired` (fixture). -/
def mExpired : Model :=
  { mBase with getRefreshToken := fun _ => .ok (some recExpired) }

/-- The payload of a refresh_token grant request (fixture). -/
def plRT : Payload :=
  { grant_type := some "refresh_token", refresh_token := some "rt1",
    client_id := some "c1", client_secret := some "s1" }

/-- The request carrying `plRT` (fixture). -/
def reqRT : Req :=
  { method := "post", mime := "application/x-www-form-urlencoded",
    payload := some plRT }

/-- Witness for C8: expiry one tick in the past relative to `now = 5`. -/
theorem expired_refresh_token_witness :
    (grantRun cfgBase mExpired tgBase reqRT 5).result =
      .stopped (mkErr "invalid_grant" "Refresh token has expired") ∧
    (grantRun cfgBase mExpired tgBase reqRT 5).calls.filter isSaveOrRevoke = [] := by
  exact expired_refresh_token_stops_without_saves cfgBase mExpired tgBase plRT
    reqRT "c1" "s1" "client-record" "rt1" recExpired 4 5 rfl rfl rfl rfl rfl rfl
    rfl (by decide) rfl rfl (by decide) rfl rfl rfl (by decide) rfl rfl rfl
    (by decide)

/-- C10: when the first ten pipeline steps succeed, the final step
`sendResponse` sends the response through the transport but calls its step
callback only under `continueAfterResponse`; with the flag false the
runner's completion callback is never invoked (the run hangs with the
response sent), and with the flag true it is invoked with a success
result.  (An erroring step always invokes the completion callback with
that error — see the step-runner theorem.) -/
theorem sendResponse_success_never_invokes_next :
    ∀ (cfg : Config) (m : Model) (tg : TokenGen) (req : Req) (now : Int)
      (st1 : GrantState) (cs : List MCall),
      runOkSeq ((grantSteps cfg m tg req).take 10) (initGrant now) =
        some (st1, cs) →
      (cfg.continueAfterResponse = false →
        (grantRun cfg m tg req now).result = .hung ∧
        (grantRun cfg m tg req now).state.resSent ≠ none) ∧
      (cfg.continueAfterResponse = true →
        (grantRun cfg m tg req now).result = .finished none) := by
  intro cfg m tg req now st1 cs h
  have hdec : grantSteps cfg m tg req =
      (grantSteps cfg m tg req).take 10 ++ [sendResponse cfg] := rfl
  constructor
  · intro hflag
    have hout : (sendResponse cfg st1).out = .never := by
      simp [sendResponse, hflag]
    have hrun := runner_seq_never ((grantSteps cfg m tg req).take 10)
      (sendResponse cfg) [] (initGrant now) st1 cs h hout
    have hgr : grantRun cfg m tg req now =
        ⟨(sendResponse cfg st1).state, cs ++ (sendResponse cfg st1).calls,
         .hung, ((grantSteps cfg m tg req).take 10).length + 1⟩ := by
      show runner (grantSteps cfg m tg req) (initGrant now) = _
      rw [hdec]
      exact hrun
    rw [hgr]
    exact ⟨rfl, by simp [sendResponse, hflag]⟩
  · intro hflag
    have hout : (sendResponse cfg st1).out = .ok none := by
      simp [sendResponse, hflag]
    have hrun := runner_seq_last_ok ((grantSteps cfg m tg req).take 10)
      (sendResponse cfg) (initGrant now) st1 cs none h hout
    have hgr : grantRun cfg m tg req now =
        ⟨(sendResponse cfg st1).state, cs ++ (sendResponse cfg st1).calls,
         .finished none, ((grantSteps cfg m tg req).take 10).length + 1⟩ := by
      show runner (grantSteps cfg m tg req) (initGrant now) = _
      rw [hdec]
      exact hrun
    rw [hgr]

/-- Witness for C10: the concrete password-grant pipeline hangs with
`continueAfterResponse` false and finishes with it true. -/
theorem sendResponse_success_witness :
    (grantRun cfgBase mBase tgBase reqPwd 0).result = .hung ∧
    (grantRun cfgBase mBase tgBase reqPwd 0).state.resSent ≠ none ∧
    (grantRun cfgCAR mBase tgBase reqPwd 0).result = .finished none := by
  have h1 := (sendResponse_success_never_invokes_next cfgBase mBase tgBase
    reqPwd 0 _ _ (by rfl)).1 rfl
  have h2 := (sendResponse_success_never_invokes_next cfgCAR mBase tgBase
    reqPwd 0 _ _ (by rfl)).2 rfl
  exact ⟨h1.1, h1.2, h2⟩

end OAuth2
